import Mathlib

/-!
# SentinelAgent: the sampling-and-delivery loop of `agentTopic/agent.go`

A shallow embedding of the Go agent: the throughput tracker, the process
ranking, the connection enumeration, configuration loading, registration and
the two tick handlers of `main`, followed by the properties checked against
the specification.

Conventions of the embedding.

* Results of the operating-system and network collaborators (gopsutil, the
  HTTP client, the file system) are inputs of the functions.
* A Go call returning `(value, error)` whose error the code discards with `_`
  is a `Read`: the code only ever sees `val`.
* A Go run-time panic (index out of range) is the `none` of an `Option`.
* `float64`/`float32` gauges are integers on a fixed-point scale; the code
  only compares and copies them. The one place where the code computes with
  `float64`, the throughput rate, is carried out in a model of binary64
  arithmetic (`F64`).
* Instants are integers counting nanoseconds, as Go's `time.Duration` does.
-/

namespace SentinelAgent

/-! ## Data model -/

/-- A gauge is a `float64` (or `float32`) reading such as a CPU percentage,
on a fixed-point scale. -/
abbrev Gauge := Int

/-- A `Read` is the pair `(value, error)` a gopsutil call returns; `failed`
says whether the error was non-nil. Where the code discards the error with
`_`, only `val` is consulted. -/
structure Read (α : Type) where
  val : α
  failed : Bool
deriving DecidableEq

/-- Go struct `ProcessModel`. -/
structure ProcessModel where
  Pid : Int
  Name : String
  Cpu : Gauge
  MemPercent : Gauge
  Username : String
  Status : String
deriving DecidableEq

/-- Go struct `NetworkConnection`. -/
structure NetworkConnection where
  Pid : Int
  LocalAddress : String
  LocalPort : Nat
  RemoteAddress : String
  RemotePort : Nat
  ProcessName : String
  Status : String
  Protocol : String
deriving DecidableEq

/-- One entry of `process.Processes()` together with what its accessors
return when `collectProcesses` calls them: `Name`, `CPUPercent`,
`MemoryPercent`, `Username` and `Status` (a `[]string`). -/
structure ProcessReads where
  Pid : Int
  name : Read String
  cpuPercent : Read Gauge
  memoryPercent : Read Gauge
  username : Read String
  status : Read (List String)
deriving DecidableEq

/-- One entry of `gnet.Connections("all")` (gopsutil `ConnectionStat`, the
fields the agent copies; `ConnType` is the field `Type`). -/
structure ConnectionStat where
  Pid : Int
  LaddrIP : String
  LaddrPort : Nat
  RaddrIP : String
  RaddrPort : Nat
  Status : String
  ConnType : String
deriving DecidableEq

/-- What the five accessors of one process do when `collectProcesses` calls
them: each succeeds with a value or fails (`none`). -/
structure ProcessAccess where
  Pid : Int
  name : Option String
  cpuPercent : Option Gauge
  memoryPercent : Option Gauge
  username : Option String
  status : Option String
deriving DecidableEq

/-- What gopsutil v3 returns for these accessors: on success the value, on
failure the zero value together with the error. `Status()` returns a slice of
one element, `[""]` when it fails. -/
def ProcessAccess.reads (a : ProcessAccess) : ProcessReads :=
  { Pid := a.Pid
    name := { val := a.name.getD "", failed := a.name.isNone }
    cpuPercent := { val := a.cpuPercent.getD 0, failed := a.cpuPercent.isNone }
    memoryPercent := { val := a.memoryPercent.getD 0, failed := a.memoryPercent.isNone }
    username := { val := a.username.getD "", failed := a.username.isNone }
    status := { val := [a.status.getD ""], failed := a.status.isNone } }

/-- The secondary process lookup of `collectNetworkConnections`:
`process.NewProcess pid` fails (`none`) or yields a handle whose `Name()`
returns the given `Read`. -/
abbrev ProcessLookup := Int → Option (Read String)

/-! ## Process ranking (`collectProcesses`) -/

/-- Insertion step of `sortSlice`. -/
def insertBy {α : Type} (less : α → α → Bool) (x : α) : List α → List α
  | [] => [x]
  | y :: ys => if less y x then y :: insertBy less x ys else x :: y :: ys

/-- Go `sort.Slice(xs, less)`: reorders `xs` so that it is ordered by `less`.
The standard library's algorithm is not part of the repository; this is an
insertion sort, and the properties below use only that the result is a
permutation ordered by `less`. -/
def sortSlice {α : Type} (less : α → α → Bool) : List α → List α
  | [] => []
  | x :: xs => insertBy less x (sortSlice less xs)

/-- The comparison passed to `sort.Slice`:
`processList[i].Cpu > processList[j].Cpu`. -/
def cpuGreater (a b : ProcessModel) : Bool := decide (a.Cpu > b.Cpu)

/-- The struct literal appended for one process. `status[0]` panics with an
index out of range when the status slice is empty. -/
def toProcessModel (p : ProcessReads) : Option ProcessModel :=
  match p.status.val with
  | [] => none
  | st :: _ =>
    some
      { Pid := p.Pid
        Name := p.name.val
        Cpu := p.cpuPercent.val
        MemPercent := p.memoryPercent.val
        Username := p.username.val
        Status := st }

/-- The `for _, p := range processes` loop of `collectProcesses`: append the
entry, then `break` once `len(processList) >= ProcessesLimit`. -/
def procLoop (limit : Int) : List ProcessReads → List ProcessModel → Option (List ProcessModel)
  | [], acc => some acc
  | p :: rest, acc =>
    match toProcessModel p with
    | none => none
    | some m =>
      if ((acc ++ [m]).length : Int) ≥ limit then some (acc ++ [m])
      else procLoop limit rest (acc ++ [m])

/-- Go `collectProcesses`. `limit` is `config.Collection.ProcessesLimit`,
`procs` what `process.Processes()` returns. `none` is a panic; a failed
`process.Processes()` yields the nil slice. -/
def collectProcesses (limit : Int) (procs : Except String (List ProcessReads)) :
    Option (List ProcessModel) :=
  match procs with
  | .error _ => some []
  | .ok table => (procLoop limit table []).map (sortSlice cpuGreater)

/-! ## Connection enumeration (`collectNetworkConnections`) -/

/-- The owner name computed at the top of the loop body: `"unknown"`, replaced
by the value of `p.Name()` when `conn.Pid > 0` and `process.NewProcess`
succeeds (the error of `Name()` is discarded). -/
def resolveProcessName (lookup : ProcessLookup) (pid : Int) : String :=
  if pid > 0 then
    match lookup pid with
    | some r => r.val
    | none => "unknown"
  else "unknown"

/-- The struct literal appended for one connection. -/
def toNetworkConnection (lookup : ProcessLookup) (c : ConnectionStat) : NetworkConnection :=
  { Pid := c.Pid
    LocalAddress := c.LaddrIP
    LocalPort := c.LaddrPort
    RemoteAddress := c.RaddrIP
    RemotePort := c.RaddrPort
    ProcessName := resolveProcessName lookup c.Pid
    Status := c.Status
    Protocol := c.ConnType }

/-- The `for _, conn := range connections` loop: append the entry, then
`break` once `len(connList) >= NetworkConnectionsLimit`. -/
def connLoop (limit : Int) (lookup : ProcessLookup) :
    List ConnectionStat → List NetworkConnection → List NetworkConnection
  | [], acc => acc
  | c :: rest, acc =>
    if ((acc ++ [toNetworkConnection lookup c]).length : Int) ≥ limit then
      acc ++ [toNetworkConnection lookup c]
    else connLoop limit lookup rest (acc ++ [toNetworkConnection lookup c])

/-- Go `collectNetworkConnections`. `limit` is
`config.Collection.NetworkConnectionsLimit`, `conns` what
`gnet.Connections("all")` returns; a failed read yields the nil slice. -/
def collectNetworkConnections (limit : Int) (conns : Except String (List ConnectionStat))
    (lookup : ProcessLookup) : List NetworkConnection :=
  match conns with
  | .error _ => []
  | .ok table => connLoop limit lookup table []

/-! ## Throughput tracker (`initNetworkStats`, `calculateNetworkSpeed`) -/

/-- The package variables `lastBytesSent`, `lastBytesRecv` (both `uint64`) and
`lastCheckTime`. -/
structure NetStats where
  lastBytesSent : Nat
  lastBytesRecv : Nat
  lastCheckTime : Int
deriving DecidableEq

/-- gopsutil `IOCountersStat`, the two counters the agent reads. -/
structure IOCountersStat where
  BytesSent : Nat
  BytesRecv : Nat
deriving DecidableEq

/-- The modulus of `uint64`. -/
def u64 : Nat := 2 ^ 64

/-- Subtraction of two `uint64` values, wrapping around. -/
def subU64 (a b : Nat) : Nat := (a + u64 - b % u64) % u64

/-- A finite non-negative `float64` value, `mant * 2 ^ exp`. Only such
values occur in the rate computation. -/
structure F64 where
  mant : Nat
  exp : Int
deriving DecidableEq

/-- The number of binary digits of `n`; `fuel` bounds the recursion and `n`
itself is always enough. -/
def bitLength : Nat → Nat → Nat
  | 0, _ => 0
  | fuel + 1, n => if n = 0 then 0 else bitLength fuel (n / 2) + 1

/-- The quotient `n / (d * 2 ^ e)` as integer part, remainder and divisor. -/
def scaledQuotient (n d : Nat) (e : Int) : Nat × Nat × Nat :=
  if e ≥ 0 then (n / (d * 2 ^ e.toNat), n % (d * 2 ^ e.toNat), d * 2 ^ e.toNat)
  else (n * 2 ^ (-e).toNat / d, n * 2 ^ (-e).toNat % d, d)

/-- The binary64 value nearest to the rational `n / d`, ties to even: the
rounding every IEEE 754 operation applies to its exact result. The exponent is
chosen so that the significand has 53 bits. The exponent range of binary64 is
not modelled: the values of the rate computation (counters below `2 ^ 64`,
durations between one nanosecond and `2 ^ 63` nanoseconds) lie far inside
it. -/
def roundF64 (n d : Nat) : F64 :=
  if n = 0 ∨ d = 0 then { mant := 0, exp := 0 }
  else
    let e0 : Int := (bitLength n n : Int) - (bitLength d d : Int) - 53
    let e : Int := if (scaledQuotient n d e0).1 ≥ 2 ^ 53 then e0 + 1 else e0
    let q := (scaledQuotient n d e).1
    let r := (scaledQuotient n d e).2.1
    let den := (scaledQuotient n d e).2.2
    if 2 * r > den ∨ (2 * r = den ∧ q % 2 = 1) then { mant := q + 1, exp := e }
    else { mant := q, exp := e }

/-- Go `float64(n)` for an unsigned integer `n`. -/
def F64.ofNat (n : Nat) : F64 := roundF64 n 1

/-- The `float64` quotient `a / b`, for `b` other than zero. -/
def F64.div (a b : F64) : F64 :=
  roundF64 (a.mant * 2 ^ (a.exp - b.exp).toNat) (b.mant * 2 ^ (b.exp - a.exp).toNat)

/-- The `float64` sum `a + b`. -/
def F64.add (a b : F64) : F64 :=
  if a.exp ≤ b.exp then
    (if a.exp ≥ 0 then
      roundF64 ((a.mant + b.mant * 2 ^ (b.exp - a.exp).toNat) * 2 ^ a.exp.toNat) 1
     else roundF64 (a.mant + b.mant * 2 ^ (b.exp - a.exp).toNat) (2 ^ (-a.exp).toNat))
  else
    (if b.exp ≥ 0 then
      roundF64 ((b.mant + a.mant * 2 ^ (a.exp - b.exp).toNat) * 2 ^ b.exp.toNat) 1
     else roundF64 (b.mant + a.mant * 2 ^ (a.exp - b.exp).toNat) (2 ^ (-b.exp).toNat))

/-- The integer part of a `float64` value. -/
def F64.trunc (a : F64) : Nat :=
  if a.exp ≥ 0 then a.mant * 2 ^ a.exp.toNat else a.mant / 2 ^ (-a.exp).toNat

/-- Go `uint64(x)` for a non-negative `float64`: truncation toward zero. For a
value of `2 ^ 64` or more Go leaves the result to the implementation; the
value given is the one produced on amd64, `2 ^ 63`. -/
def toUint64 (a : F64) : Nat := if a.trunc < u64 then a.trunc else 2 ^ 63

/-- Go `Duration.Seconds()` for a positive duration of `ns` nanoseconds:
`float64(sec) + float64(nsec)/1e9` with `sec = d / Second` and
`nsec = d % Second`. -/
def durationSeconds (ns : Int) : F64 :=
  F64.add (F64.ofNat (ns.toNat / 1000000000))
    (F64.div (F64.ofNat (ns.toNat % 1000000000)) (F64.ofNat 1000000000))

/-- Go `uint64(float64(diff) / elapsed)` where `elapsed` is
`now.Sub(lastCheckTime).Seconds()` for a positive duration of `elapsedNs`
nanoseconds. -/
def rateU64 (diff : Nat) (elapsedNs : Int) : Nat :=
  toUint64 (F64.div (F64.ofNat diff) (durationSeconds elapsedNs))

/-- Go `initNetworkStats`: `now` is `time.Now()`, `counters` what
`gnet.IOCounters(false)` returns. -/
def initNetworkStats (st : NetStats) (now : Int) (counters : Read (List IOCountersStat)) :
    NetStats :=
  match counters.failed, counters.val with
  | false, c :: _ =>
    { lastBytesSent := c.BytesSent, lastBytesRecv := c.BytesRecv, lastCheckTime := now }
  | _, _ => { st with lastCheckTime := now }

/-- Go `calculateNetworkSpeed`: returns `(sentSec, recvSec)` and the package
variables afterwards. `now` is `time.Now()`, `counters` what
`gnet.IOCounters(false)` returns when it is called. The guard `elapsed <= 0`
is taken on the duration: `Seconds()` is positive exactly when the duration
is. -/
def calculateNetworkSpeed (st : NetStats) (now : Int) (counters : Read (List IOCountersStat)) :
    (Nat × Nat) × NetStats :=
  if now - st.lastCheckTime ≤ 0 then ((0, 0), st)
  else
    match counters.failed, counters.val with
    | false, c :: _ =>
      ((rateU64 (subU64 c.BytesSent st.lastBytesSent) (now - st.lastCheckTime),
        rateU64 (subU64 c.BytesRecv st.lastBytesRecv) (now - st.lastCheckTime)),
       { lastBytesSent := c.BytesSent, lastBytesRecv := c.BytesRecv, lastCheckTime := now })
    | _, _ => ((0, 0), st)

/-- One throughput sample: a successful counter reading taken at `time`. -/
structure Sample where
  sent : Nat
  recv : Nat
  time : Int
deriving DecidableEq

/-- What `gnet.IOCounters(false)` returns for a sample: no error and the one
aggregated entry. -/
def Sample.counters (s : Sample) : Read (List IOCountersStat) :=
  { val := [{ BytesSent := s.sent, BytesRecv := s.recv }], failed := false }

/-- The tracker state holding a sample as its baseline. -/
def Sample.baseline (s : Sample) : NetStats :=
  { lastBytesSent := s.sent, lastBytesRecv := s.recv, lastCheckTime := s.time }

/-- Successive calls of `calculateNetworkSpeed`, one per sample, threading the
package variables: for each call the rates it returns and the state it
leaves. -/
def runSamples (st : NetStats) : List Sample → List ((Nat × Nat) × NetStats)
  | [] => []
  | s :: rest =>
    calculateNetworkSpeed st s.time s.counters
      :: runSamples (calculateNetworkSpeed st s.time s.counters).2 rest

/-- The rate formula in the words of the specification:
`(current - last) / elapsedSeconds`, the exact quotient, truncated to an
unsigned integer, independently for sent and received. -/
def specRate (last cur : Sample) : Nat × Nat :=
  ((cur.sent - last.sent) * 1000000000 / (cur.time - last.time).toNat,
   (cur.recv - last.recv) * 1000000000 / (cur.time - last.time).toNat)

/-- What the specification assigns to a sequence of samples following the
baseline `last`: for each sample its rate against the sample immediately
before it, and the sample itself as the new baseline. -/
def specTrace (last : Sample) : List Sample → List ((Nat × Nat) × NetStats)
  | [] => []
  | s :: rest => (specRate last s, s.baseline) :: specTrace s rest

/-- The rate formula with the quotient taken in `float64`: the difference of
the counters converted to `float64`, divided by the elapsed time in seconds as
`Duration.Seconds()` gives it, and the quotient converted to `uint64`. -/
def floatRate (last cur : Sample) : Nat × Nat :=
  (toUint64 (F64.div (F64.ofNat (cur.sent - last.sent))
      (durationSeconds (cur.time - last.time))),
   toUint64 (F64.div (F64.ofNat (cur.recv - last.recv))
      (durationSeconds (cur.time - last.time))))

/-- The trace of a sequence of samples under `floatRate`: for each sample its
rate against the sample immediately before it, and the sample itself as the
new baseline. -/
def floatTrace (last : Sample) : List Sample → List ((Nat × Nat) × NetStats)
  | [] => []
  | s :: rest => (floatRate last s, s.baseline) :: floatTrace s rest

/-- Strictly increasing timestamps and non-decreasing counters between two
successive samples, the counters being `uint64` values and the instants no
further apart than a `Duration` (an `int64` of nanoseconds) can hold. -/
def Sample.follows (a b : Sample) : Prop :=
  a.time < b.time ∧ b.time - a.time < 2 ^ 63 ∧ a.sent ≤ b.sent ∧ a.recv ≤ b.recv
    ∧ b.sent < u64 ∧ b.recv < u64

/-! ## Configuration (`loadDefaultConfig`, `loadConfig`) -/

/-- The anonymous struct `AgentConfig.Collection`. -/
structure CollectionConfig where
  MetricsIntervalSeconds : Int
  HeartbeatIntervalSeconds : Int
  ProcessesLimit : Int
  NetworkConnectionsLimit : Int
  EnableNetworkSpeed : Bool
  EnableDetailedProcesses : Bool
deriving DecidableEq

/-- The anonymous struct `AgentConfig.Security`. -/
structure SecurityConfig where
  TLSEnabled : Bool
  TLSSkipVerify : Bool
  CertPath : String
  KeyPath : String
deriving DecidableEq

/-- The anonymous struct `AgentConfig.Logging`. -/
structure LoggingConfig where
  Level : String
  FilePath : String
  MaxSizeMB : Int
  MaxBackups : Int
  MaxAgeDays : Int
deriving DecidableEq

/-- Go struct `AgentConfig`, the type of the package variable `config`. -/
structure AgentConfig where
  ServerURL : String
  AgentID : String
  ApiKey : String
  KafkaBroker : String
  KafkaTopic : String
  Collection : CollectionConfig
  Security : SecurityConfig
  Logging : LoggingConfig
deriving DecidableEq

/-- The zero value of `config` at program start. -/
def zeroConfig : AgentConfig :=
  { ServerURL := "", AgentID := "", ApiKey := "", KafkaBroker := "", KafkaTopic := ""
    Collection :=
      { MetricsIntervalSeconds := 0, HeartbeatIntervalSeconds := 0, ProcessesLimit := 0
        NetworkConnectionsLimit := 0, EnableNetworkSpeed := false
        EnableDetailedProcesses := false }
    Security := { TLSEnabled := false, TLSSkipVerify := false, CertPath := "", KeyPath := "" }
    Logging := { Level := "", FilePath := "", MaxSizeMB := 0, MaxBackups := 0, MaxAgeDays := 0 } }

/-- Go `loadDefaultConfig`. -/
def loadDefaultConfig (c : AgentConfig) : AgentConfig :=
  { c with
    ServerURL := "http://localhost:8080"
    KafkaBroker := "localhost:9092"
    KafkaTopic := "telemetry"
    Collection :=
      { c.Collection with
        MetricsIntervalSeconds := 10
        HeartbeatIntervalSeconds := 30
        ProcessesLimit := 50
        NetworkConnectionsLimit := 100
        EnableNetworkSpeed := true
        EnableDetailedProcesses := true }
    Logging := { c.Logging with Level := "info", FilePath := "sentinelagent.log" } }

/-- What `json.Unmarshal(data, &config)` writes: for each key of the document
that it decodes, the decoded value; a field whose key is absent (`none`) keeps
its value. -/
structure ConfigPatch where
  serverUrl : Option String
  agentId : Option String
  apiKey : Option String
  kafkaBroker : Option String
  kafkaTopic : Option String
  metricsIntervalSeconds : Option Int
  heartbeatIntervalSeconds : Option Int
  processesLimit : Option Int
  networkConnectionsLimit : Option Int
  enableNetworkSpeed : Option Bool
  enableDetailedProcesses : Option Bool
  tlsEnabled : Option Bool
  tlsSkipVerify : Option Bool
  certPath : Option String
  keyPath : Option String
  level : Option String
  filePath : Option String
  maxSizeMB : Option Int
  maxBackups : Option Int
  maxAgeDays : Option Int
deriving DecidableEq

/-- The document without any key. -/
def emptyPatch : ConfigPatch :=
  { serverUrl := none, agentId := none, apiKey := none, kafkaBroker := none
    kafkaTopic := none, metricsIntervalSeconds := none, heartbeatIntervalSeconds := none
    processesLimit := none, networkConnectionsLimit := none, enableNetworkSpeed := none
    enableDetailedProcesses := none, tlsEnabled := none, tlsSkipVerify := none
    certPath := none, keyPath := none, level := none, filePath := none
    maxSizeMB := none, maxBackups := none, maxAgeDays := none }

/-- The effect of `json.Unmarshal(data, &config)` on `config`. -/
def unmarshalConfig (p : ConfigPatch) (c : AgentConfig) : AgentConfig :=
  { ServerURL := p.serverUrl.getD c.ServerURL
    AgentID := p.agentId.getD c.AgentID
    ApiKey := p.apiKey.getD c.ApiKey
    KafkaBroker := p.kafkaBroker.getD c.KafkaBroker
    KafkaTopic := p.kafkaTopic.getD c.KafkaTopic
    Collection :=
      { MetricsIntervalSeconds := p.metricsIntervalSeconds.getD c.Collection.MetricsIntervalSeconds
        HeartbeatIntervalSeconds :=
          p.heartbeatIntervalSeconds.getD c.Collection.HeartbeatIntervalSeconds
        ProcessesLimit := p.processesLimit.getD c.Collection.ProcessesLimit
        NetworkConnectionsLimit :=
          p.networkConnectionsLimit.getD c.Collection.NetworkConnectionsLimit
        EnableNetworkSpeed := p.enableNetworkSpeed.getD c.Collection.EnableNetworkSpeed
        EnableDetailedProcesses :=
          p.enableDetailedProcesses.getD c.Collection.EnableDetailedProcesses }
    Security :=
      { TLSEnabled := p.tlsEnabled.getD c.Security.TLSEnabled
        TLSSkipVerify := p.tlsSkipVerify.getD c.Security.TLSSkipVerify
        CertPath := p.certPath.getD c.Security.CertPath
        KeyPath := p.keyPath.getD c.Security.KeyPath }
    Logging :=
      { Level := p.level.getD c.Logging.Level
        FilePath := p.filePath.getD c.Logging.FilePath
        MaxSizeMB := p.maxSizeMB.getD c.Logging.MaxSizeMB
        MaxBackups := p.maxBackups.getD c.Logging.MaxBackups
        MaxAgeDays := p.maxAgeDays.getD c.Logging.MaxAgeDays } }

/-- What reading and decoding `agent_config.json` gives: `os.ReadFile` fails,
or `json.Unmarshal` writes `patch` into `config` and returns an error or not
(on a type mismatch it reports the error after decoding the other keys). -/
inductive ConfigFile where
  | unreadable
  | decoded (patch : ConfigPatch) (unmarshalFailed : Bool)
deriving DecidableEq

/-- The five environment variables `loadConfig` consults; `os.Getenv` gives
`""` for an unset variable. -/
structure Environment where
  SERVER_URL : String
  KAFKA_BROKER : String
  KAFKA_TOPIC : String
  AGENT_ID : String
  API_KEY : String
deriving DecidableEq

/-- The environment overrides at the end of `loadConfig`. -/
def applyEnvironment (env : Environment) (c : AgentConfig) : AgentConfig :=
  { c with
    ServerURL := if env.SERVER_URL ≠ "" then env.SERVER_URL else c.ServerURL
    KafkaBroker := if env.KAFKA_BROKER ≠ "" then env.KAFKA_BROKER else c.KafkaBroker
    KafkaTopic := if env.KAFKA_TOPIC ≠ "" then env.KAFKA_TOPIC else c.KafkaTopic
    AgentID := if env.AGENT_ID ≠ "" then env.AGENT_ID else c.AgentID
    ApiKey := if env.API_KEY ≠ "" then env.API_KEY else c.ApiKey }

/-- Go `loadConfig`: its boolean result and `config` afterwards. -/
def loadConfig (c : AgentConfig) (file : ConfigFile) (env : Environment) : Bool × AgentConfig :=
  match file with
  | .unreadable => (false, c)
  | .decoded patch true => (false, unmarshalConfig patch c)
  | .decoded patch false => (true, applyEnvironment env (unmarshalConfig patch c))

/-! ## Registration (`registerAgent`) -/

/-- Go struct `RegistrationResponse`. -/
structure RegistrationResponse where
  AgentID : String
  ApiKey : String
  Status : String
  Message : String
deriving DecidableEq

/-- What `client.Post` to the registration endpoint gives: a transport error,
or a response with `StatusCode`, `Status`, the text of its body, and what
decoding the body as a `RegistrationResponse` gives. -/
inductive RegistrationExchange where
  | transportError (msg : String)
  | response (statusCode : Nat) (status : String) (body : String)
      (decoded : Except String RegistrationResponse)

/-- Go `registerAgent`: the error it returns (`none` for nil) and `config`
afterwards. The request body is a struct of strings, whose `json.Marshal`
does not fail; a failure of `saveConfig` is only logged. -/
def registerAgent (c : AgentConfig) (x : RegistrationExchange) : Option String × AgentConfig :=
  match x with
  | .transportError msg => (some msg, c)
  | .response statusCode status body decoded =>
    if statusCode ≠ 200 ∧ statusCode ≠ 201 then
      (some ("registration failed: " ++ status ++ " - " ++ body), c)
    else
      match decoded with
      | .error e => (some e, c)
      | .ok regResp => (none, { c with AgentID := regResp.AgentID, ApiKey := regResp.ApiKey })

/-! ## Snapshot building (`collectMetrics`) -/

/-- The mutable state of the process: the package variables `config` and the
throughput tracker. -/
structure AgentState where
  config : AgentConfig
  net : NetStats
deriving DecidableEq

/-- gopsutil `VirtualMemoryStat`, the fields the agent reads. -/
structure VirtualMemoryStat where
  Total : Nat
  Used : Nat
  UsedPercent : Gauge
deriving DecidableEq

/-- gopsutil `UsageStat` of the root volume, the fields the agent reads. -/
structure UsageStat where
  Total : Nat
  Used : Nat
  UsedPercent : Gauge
deriving DecidableEq

/-- Go struct `MetricReport`. -/
structure MetricReport where
  AgentID : String
  ApiKey : String
  Hostname : String
  OsVersion : String
  AgentVersion : String
  CpuUsage : Gauge
  RamUsedPercent : Gauge
  RamTotalMb : Nat
  RamUsedMb : Nat
  DiskUsedPercent : Gauge
  DiskTotalGb : Nat
  DiskUsedGb : Nat
  Processes : List ProcessModel
  NetworkConnections : List NetworkConnection
  BytesSentSec : Nat
  BytesRecvSec : Nat
  Timestamp : Int
  UptimeSeconds : Nat
deriving DecidableEq

/-- Everything one call of `collectMetrics` reads from its collaborators. -/
structure TickWorld where
  cpuPercent : Except String (List Gauge)
  virtualMemory : Except String VirtualMemoryStat
  diskUsage : Except String UsageStat
  hostname : String
  osVersion : String
  uptime : Nat
  timestamp : Int
  now : Int
  counters : Read (List IOCountersStat)
  processes : Except String (List ProcessReads)
  connections : Except String (List ConnectionStat)
  lookup : ProcessLookup

/-- The constant `Version`. -/
def Version : String := "1.1.0"

/-- Go `collectMetrics`: `none` is a panic, otherwise the report or the error
returned, with the state afterwards. -/
def collectMetrics (s : AgentState) (w : TickWorld) :
    Option (Except String MetricReport × AgentState) :=
  match w.cpuPercent with
  | .error e => some (.error ("failed to get CPU usage: " ++ e), s)
  | .ok cpuPercent =>
    match w.virtualMemory with
    | .error e => some (.error ("failed to get memory info: " ++ e), s)
    | .ok memInfo =>
      match w.diskUsage with
      | .error e => some (.error ("failed to get disk info: " ++ e), s)
      | .ok diskInfo =>
        match cpuPercent with
        | [] => none
        | cpu0 :: _ =>
          let speed :=
            if s.config.Collection.EnableNetworkSpeed then
              calculateNetworkSpeed s.net w.now w.counters
            else ((0, 0), s.net)
          let procs :=
            if s.config.Collection.EnableDetailedProcesses then
              collectProcesses s.config.Collection.ProcessesLimit w.processes
            else some []
          match procs with
          | none => none
          | some processes =>
            some
              (.ok
                { AgentID := s.config.AgentID
                  ApiKey := s.config.ApiKey
                  Hostname := w.hostname
                  OsVersion := w.osVersion
                  AgentVersion := Version
                  CpuUsage := cpu0
                  RamUsedPercent := memInfo.UsedPercent
                  RamTotalMb := memInfo.Total / 1024 / 1024
                  RamUsedMb := memInfo.Used / 1024 / 1024
                  DiskUsedPercent := diskInfo.UsedPercent
                  DiskTotalGb := diskInfo.Total / 1024 / 1024 / 1024
                  DiskUsedGb := diskInfo.Used / 1024 / 1024 / 1024
                  Processes := processes
                  NetworkConnections :=
                    collectNetworkConnections s.config.Collection.NetworkConnectionsLimit
                      w.connections w.lookup
                  BytesSentSec := speed.1.1
                  BytesRecvSec := speed.1.2
                  Timestamp := w.timestamp
                  UptimeSeconds := w.uptime },
               { s with net := speed.2 })

/-! ## Heartbeat and the scheduler loop (`sendHeartbeat`, `main`) -/

/-- Go struct `HeartbeatRequest`. -/
structure HeartbeatRequest where
  AgentID : String
  CpuUsage : Gauge
  RamUsedPercent : Gauge
  Status : String
  Timestamp : Int
deriving DecidableEq

/-- What one heartbeat tick did: the URL and body posted, if a request was
made, and the error logged, if any. -/
structure HeartbeatOutcome where
  posted : Option (String × HeartbeatRequest)
  error : Option String
deriving DecidableEq

/-- Go `sendHeartbeat`. `hbTime` is the `time.Now()` of the request body,
`post` what `client.Post` gives: a transport error, or the `StatusCode` and
`Status` of the response. -/
def sendHeartbeat (s : AgentState) (w : TickWorld) (hbTime : Int)
    (post : Except String (Nat × String)) :
    Option (HeartbeatOutcome × AgentState) :=
  match collectMetrics s w with
  | none => none
  | some (.error e, s1) => some ({ posted := none, error := some e }, s1)
  | some (.ok metrics, s1) =>
    let heartbeat : HeartbeatRequest :=
      { AgentID := s1.config.AgentID
        CpuUsage := metrics.CpuUsage
        RamUsedPercent := metrics.RamUsedPercent
        Status := "ACTIVE"
        Timestamp := hbTime }
    let url := s1.config.ServerURL ++ "/api/v1/agents/" ++ s1.config.AgentID ++ "/heartbeat"
    match post with
    | .error e => some ({ posted := some (url, heartbeat), error := some e }, s1)
    | .ok (statusCode, status) =>
      if statusCode ≠ 200 then
        some
          ({ posted := some (url, heartbeat), error := some ("heartbeat failed: " ++ status) },
           s1)
      else some ({ posted := some (url, heartbeat), error := none }, s1)

/-- The `heartbeatTicker` case of the loop in `main`. -/
def heartbeatTick (s : AgentState) (w : TickWorld) (hbTime : Int)
    (post : Except String (Nat × String)) :
    Option (HeartbeatOutcome × AgentState) :=
  if s.config.AgentID ≠ "" then sendHeartbeat s w hbTime post
  else some ({ posted := none, error := none }, s)

/-- What one metrics tick did: the report handed to `sendToKafka`, if one was
built, and the error logged, if any. -/
structure MetricsOutcome where
  published : Option MetricReport
  error : Option String
deriving DecidableEq

/-- The `metricsTicker` case of the loop in `main`. `kafka` is what
`sendToKafka` returns for the report (`none` for nil). -/
def metricsTick (s : AgentState) (w : TickWorld) (kafka : Option String) :
    Option (MetricsOutcome × AgentState) :=
  match collectMetrics s w with
  | none => none
  | some (.error e, s1) => some ({ published := none, error := some e }, s1)
  | some (.ok report, s1) => some ({ published := some report, error := kafka }, s1)

/-- Everything the start of `main` reads before the loop. -/
structure StartupWorld where
  file : ConfigFile
  env : Environment
  bootTime : Int
  bootCounters : Read (List IOCountersStat)
  registration : RegistrationExchange

/-- The configuration after `loadDefaultConfig(); loadConfig()`. -/
def loadedConfig (w : StartupWorld) : AgentConfig :=
  (loadConfig (loadDefaultConfig zeroConfig) w.file w.env).2

/-- The start of `main` up to the loop: defaults, `loadConfig`,
`initNetworkStats`, and `registerAgent` when `config.AgentID == ""`. -/
def startup (w : StartupWorld) : AgentState :=
  { config :=
      if (loadedConfig w).AgentID = "" then (registerAgent (loadedConfig w) w.registration).2
      else loadedConfig w
    net :=
      initNetworkStats { lastBytesSent := 0, lastBytesRecv := 0, lastCheckTime := 0 }
        w.bootTime w.bootCounters }

/-- One firing of a periodic trigger, with what its handler reads. -/
inductive Tick where
  | metrics (w : TickWorld) (kafka : Option String)
  | heartbeat (w : TickWorld) (hbTime : Int) (post : Except String (Nat × String))

/-- One iteration of the loop in `main`: the state after the handler, `none`
when it panics. -/
def step (s : AgentState) : Tick → Option AgentState
  | .metrics w kafka => (metricsTick s w kafka).map (·.2)
  | .heartbeat w hbTime post => (heartbeatTick s w hbTime post).map (·.2)

/-- The loop in `main` over a sequence of ticks. -/
def run (s : AgentState) : List Tick → Option AgentState
  | [] => some s
  | t :: rest =>
    match step s t with
    | none => none
    | some s1 => run s1 rest

/-- Both identity fields empty or both non-empty. -/
def identityPaired (agentId apiKey : String) : Prop :=
  (agentId = "" ∧ apiKey = "") ∨ (agentId ≠ "" ∧ apiKey ≠ "")

instance (a k : String) : Decidable (identityPaired a k) := by
  unfold identityPaired; infer_instance

/-- The registration exchange fails: a transport error, a status other than
200 and 201, or a body that does not decode. -/
def RegistrationExchange.fails : RegistrationExchange → Prop
  | .transportError _ => True
  | .response statusCode _ _ decoded =>
    (statusCode ≠ 200 ∧ statusCode ≠ 201) ∨ ∃ e, decoded = .error e

/-- The CPU, memory and disk reads of a tick all return without error. -/
def TickWorld.readsSucceed (w : TickWorld) : Bool :=
  match w.cpuPercent, w.virtualMemory, w.diskUsage with
  | .ok _, .ok _, .ok _ => true
  | _, _, _ => false

/-- No slice that `collectMetrics` indexes at `[0]` is empty: the CPU read
does not return an empty slice, and no status read of the process table
does. -/
def TickWorld.indexSafe (w : TickWorld) : Prop :=
  w.cpuPercent ≠ .ok [] ∧ ∀ table, w.processes = .ok table → ∀ p ∈ table, p.status.val ≠ []


/-! ## Concrete inputs used by the evaluations below -/

/-- A process whose five reads all succeed. -/
def mkProcess (pid : Int) (name : String) (cpu : Gauge) (status : String) : ProcessReads :=
  { Pid := pid
    name := { val := name, failed := false }
    cpuPercent := { val := cpu, failed := false }
    memoryPercent := { val := 0, failed := false }
    username := { val := "root", failed := false }
    status := { val := [status], failed := false } }

/-- A process whose five reads all fail. -/
def unreadableProcess (pid : Int) : ProcessReads :=
  ProcessAccess.reads
    { Pid := pid, name := none, cpuPercent := none, memoryPercent := none, username := none
      status := none }

/-- A TCP socket owned by `pid`. -/
def mkConnection (pid : Int) (port : Nat) : ConnectionStat :=
  { Pid := pid, LaddrIP := "10.0.0.1", LaddrPort := port, RaddrIP := "10.0.0.2"
    RaddrPort := 443, Status := "ESTABLISHED", ConnType := "tcp" }

/-- A lookup in which `process.NewProcess` succeeds for every pid and
`Name()` fails, returning the empty string with its error. -/
def nameReadFails : ProcessLookup := fun _ => some { val := "", failed := true }

/-- A lookup in which `process.NewProcess` fails for every pid. -/
def handleFails : ProcessLookup := fun _ => none

/-- A registered agent with the default configuration and the tracker baseline
`(0, 0)` taken at instant 0. -/
def registeredState : AgentState :=
  { config := { loadDefaultConfig zeroConfig with AgentID := "agent-1", ApiKey := "key-1" }
    net := { lastBytesSent := 0, lastBytesRecv := 0, lastCheckTime := 0 } }

/-- A tick at instant `now` (nanoseconds) whose reads all succeed, the
interface counters standing at `sent` and `recv`, with one process and one
socket. -/
def tickWorldAt (now : Int) (sent recv : Nat) : TickWorld :=
  { cpuPercent := .ok [12]
    virtualMemory := .ok { Total := 8589934592, Used := 4294967296, UsedPercent := 50 }
    diskUsage := .ok { Total := 107374182400, Used := 53687091200, UsedPercent := 50 }
    hostname := "host-1"
    osVersion := "linux"
    uptime := 3600
    timestamp := now
    now := now
    counters := { val := [{ BytesSent := sent, BytesRecv := recv }], failed := false }
    processes := .ok [mkProcess 1 "init" 1 "S"]
    connections := .ok [mkConnection 1 8080]
    lookup := handleFails }

/-- The tick `tickWorldAt` in which `cpu.Percent` returns no error and an
empty slice. -/
def emptyCpuTick (now : Int) (sent recv : Nat) : TickWorld :=
  { tickWorldAt now sent recv with cpuPercent := .ok [] }

/-- A start of `main` with no configuration file, no environment override and
a registration endpoint answering 503. -/
def standaloneStart : StartupWorld :=
  { file := .unreadable
    env := { SERVER_URL := "", KAFKA_BROKER := "", KAFKA_TOPIC := "", AGENT_ID := "", API_KEY := "" }
    bootTime := 0
    bootCounters := { val := [{ BytesSent := 0, BytesRecv := 0 }], failed := false }
    registration := .response 503 "503 Service Unavailable" "" (.error "EOF") }



set_option maxRecDepth 8192

/-! # Properties

## Lemmas on `sortSlice` and the two collection loops -/

theorem insertBy_perm {α : Type} (less : α → α → Bool) (x : α) (l : List α) :
    (insertBy less x l).Perm (x :: l) := by
  induction l with
  | nil => simp [insertBy]
  | cons y ys ih =>
    simp only [insertBy]
    split
    · exact (List.Perm.cons y ih).trans (List.Perm.swap x y ys)
    · exact List.Perm.refl _

theorem sortSlice_perm {α : Type} (less : α → α → Bool) (l : List α) :
    (sortSlice less l).Perm l := by
  induction l with
  | nil => simp [sortSlice]
  | cons x xs ih =>
    simp only [sortSlice]
    exact (insertBy_perm less x _).trans (List.Perm.cons x ih)

theorem insertBy_cpu_descending (x : ProcessModel) (l : List ProcessModel)
    (h : l.Pairwise (fun a b => a.Cpu ≥ b.Cpu)) :
    (insertBy cpuGreater x l).Pairwise (fun a b => a.Cpu ≥ b.Cpu) := by
  induction l with
  | nil => simp [insertBy]
  | cons y ys ih =>
    rw [List.pairwise_cons] at h
    simp only [insertBy]
    split
    · rename_i hlt
      have hyx : y.Cpu > x.Cpu := by simpa [cpuGreater] using hlt
      rw [List.pairwise_cons]
      refine ⟨?_, ih h.2⟩
      intro z hz
      have hz2 : z ∈ x :: ys := (insertBy_perm cpuGreater x ys).mem_iff.mp hz
      rcases List.mem_cons.mp hz2 with rfl | hz3
      · exact le_of_lt hyx
      · exact h.1 z hz3
    · rename_i hlt
      have hxy : x.Cpu ≥ y.Cpu := by
        have : ¬ y.Cpu > x.Cpu := by simpa [cpuGreater] using hlt
        exact not_lt.mp this
      rw [List.pairwise_cons]
      refine ⟨?_, List.pairwise_cons.mpr h⟩
      intro z hz
      rcases List.mem_cons.mp hz with rfl | hz3
      · exact hxy
      · exact le_trans (h.1 z hz3) hxy

theorem sortSlice_cpu_descending (l : List ProcessModel) :
    (sortSlice cpuGreater l).Pairwise (fun a b => a.Cpu ≥ b.Cpu) := by
  induction l with
  | nil => simp [sortSlice]
  | cons x xs ih => exact insertBy_cpu_descending x _ ih

/-- The loop of `collectProcesses`, when no status slice is empty, stops after
`max 1 (limit - len(acc))` further entries. -/
theorem procLoop_eq (limit : Int) :
    ∀ (table : List ProcessReads) (entries acc : List ProcessModel),
      table.map toProcessModel = entries.map some →
      procLoop limit table acc
        = some (acc ++ entries.take (max 1 (limit - (acc.length : Int))).toNat) := by
  intro table
  induction table with
  | nil =>
    intro entries acc h
    cases entries with
    | nil => simp [procLoop]
    | cons m ms => simp at h
  | cons p rest ih =>
    intro entries acc h
    cases entries with
    | nil => simp at h
    | cons m ms =>
      simp only [List.map_cons, List.cons.injEq] at h
      obtain ⟨hp, hrest⟩ := h
      simp only [procLoop, hp]
      by_cases hlim : ((acc ++ [m]).length : Int) ≥ limit
      · rw [if_pos hlim]
        have hk : (max 1 (limit - (acc.length : Int))).toNat = 1 := by
          simp only [List.length_append, List.length_singleton, Nat.cast_add, Nat.cast_one] at hlim
          have : max 1 (limit - (acc.length : Int)) = 1 := by omega
          rw [this]; rfl
        rw [hk]; simp
      · rw [if_neg hlim, ih ms (acc ++ [m]) hrest]
        simp only [List.length_append, List.length_singleton, Nat.cast_add, Nat.cast_one,
          ge_iff_le, not_le] at hlim
        have hk : (max 1 (limit - (acc.length : Int))).toNat
            = (max 1 (limit - ((acc.length : Int) + 1))).toNat + 1 := by omega
        simp only [List.length_append, List.length_singleton, Nat.cast_add, Nat.cast_one]
        rw [hk]; simp

/-- The loop of `collectNetworkConnections` stops after
`max 1 (limit - len(acc))` further entries. -/
theorem connLoop_eq (limit : Int) (lookup : ProcessLookup) :
    ∀ (table : List ConnectionStat) (acc : List NetworkConnection),
      connLoop limit lookup table acc
        = acc ++ (table.take (max 1 (limit - (acc.length : Int))).toNat).map
            (toNetworkConnection lookup) := by
  intro table
  induction table with
  | nil => intro acc; simp [connLoop]
  | cons c rest ih =>
    intro acc
    simp only [connLoop]
    by_cases hlim : ((acc ++ [toNetworkConnection lookup c]).length : Int) ≥ limit
    · rw [if_pos hlim]
      have hk : (max 1 (limit - (acc.length : Int))).toNat = 1 := by
        simp only [List.length_append, List.length_singleton, Nat.cast_add, Nat.cast_one] at hlim
        have : max 1 (limit - (acc.length : Int)) = 1 := by omega
        rw [this]; rfl
      rw [hk]; simp
    · rw [if_neg hlim, ih (acc ++ [toNetworkConnection lookup c])]
      simp only [List.length_append, List.length_singleton, Nat.cast_add, Nat.cast_one,
        ge_iff_le, not_le] at hlim
      have hk : (max 1 (limit - (acc.length : Int))).toNat
          = (max 1 (limit - ((acc.length : Int) + 1))).toNat + 1 := by omega
      simp only [List.length_append, List.length_singleton, Nat.cast_add, Nat.cast_one]
      rw [hk]; simp


/-! ## Process ranking -/

/-- What `collectProcesses` returns when no status slice is empty: the first
`max 1 limit` entries of the table, in table order, then sorted. -/
theorem collectProcesses_eq (limit : Int) (table : List ProcessReads)
    (entries : List ProcessModel) (hproj : table.map toProcessModel = entries.map some) :
    collectProcesses limit (.ok table)
      = some (sortSlice cpuGreater (entries.take (max 1 limit).toNat)) := by
  simp [collectProcesses, procLoop_eq limit table entries [] hproj]

/-- For a table larger than a limit of at least one, `collectProcesses`
returns exactly `limit` entries: the sorted first `limit` entries of the
table. -/
theorem collectProcesses_over_limit (limit : Int) (table : List ProcessReads)
    (entries : List ProcessModel) (hproj : table.map toProcessModel = entries.map some)
    (hlimit : 1 ≤ limit) (hsize : limit < (table.length : Int)) :
    ∃ l, collectProcesses limit (.ok table) = some l
      ∧ l.Perm (entries.take limit.toNat)
      ∧ (l.length : Int) = limit := by
  have hlen : entries.length = table.length := by
    have := congrArg List.length hproj
    simpa using this.symm
  have hmax : (max 1 limit).toNat = limit.toNat := by omega
  refine ⟨_, collectProcesses_eq limit table entries hproj, ?_, ?_⟩
  · rw [hmax]; exact sortSlice_perm _ _
  · rw [(sortSlice_perm cpuGreater _).length_eq, hmax, List.length_take]
    omega

/-- C1, evaluated on the code: with `ProcessesLimit = 1` and the table
`[init (cpu 1), worker (cpu 5)]`, of size 2 > 1, `collectProcesses` returns
exactly one entry, that of `init`; the entry of `worker` is left out although
its cpu is higher than the cpu of the entry returned. The loop stops at the
limit before the sort sees the rest of the table. -/
theorem collectProcesses_ranks_only_table_head :
    ∃ returned leftOut : ProcessModel,
      collectProcesses 1 (.ok [mkProcess 1 "init" 1 "S", mkProcess 2 "worker" 5 "R"])
          = some [returned]
        ∧ toProcessModel (mkProcess 2 "worker" 5 "R") = some leftOut
        ∧ leftOut ∉ [returned]
        ∧ leftOut.Cpu > returned.Cpu :=
  ⟨{ Pid := 1, Name := "init", Cpu := 1, MemPercent := 0, Username := "root", Status := "S" },
   { Pid := 2, Name := "worker", Cpu := 5, MemPercent := 0, Username := "root", Status := "R" },
   by decide⟩

/-- When the table fits the limit, a loop that returns has visited every
process: each of them has an entry. -/
theorem procLoop_some_projects (limit : Int) :
    ∀ (table : List ProcessReads) (acc l : List ProcessModel),
      ((acc.length : Int) + (table.length : Int) ≤ limit) → procLoop limit table acc = some l →
      ∃ entries : List ProcessModel, table.map toProcessModel = entries.map some := by
  intro table
  induction table with
  | nil => intro acc l _ _; exact ⟨[], rfl⟩
  | cons p rest ih =>
    intro acc l hlen h
    simp only [procLoop] at h
    cases hp : toProcessModel p with
    | none => simp [hp] at h
    | some m =>
      simp only [hp] at h
      simp only [List.length_cons, Nat.cast_add, Nat.cast_one] at hlen
      by_cases hlim : ((acc ++ [m]).length : Int) ≥ limit
      · have hrest : rest = [] := by
          simp only [List.length_append, List.length_singleton, Nat.cast_add, Nat.cast_one] at hlim
          apply List.eq_nil_of_length_eq_zero
          omega
        subst hrest
        exact ⟨[m], by simp [hp]⟩
      · rw [if_neg hlim] at h
        obtain ⟨es, hes⟩ := ih (acc ++ [m]) l (by simp; omega) h
        exact ⟨m :: es, by simp [hes, hp]⟩

/-- C2: for every process table whose size is at most `ProcessesLimit`, the
list returned by `collectProcesses` is a permutation of the projection of the
full table (one entry per process, none dropped or duplicated) and is ordered
by cpu descending: every entry's cpu is at least the cpu of every later entry,
in particular of the entry after it. The function returns that list whenever
the table has a projection, that is whenever each process has an entry. -/
theorem collectProcesses_within_limit (limit : Int) (table : List ProcessReads)
    (hsize : (table.length : Int) ≤ limit) :
    (∀ l, collectProcesses limit (.ok table) = some l →
        ∃ entries : List ProcessModel, table.map toProcessModel = entries.map some
          ∧ l.Perm entries
          ∧ l.Pairwise (fun a b => a.Cpu ≥ b.Cpu)
          ∧ l.Chain' (fun a b => a.Cpu ≥ b.Cpu))
      ∧ (∀ entries : List ProcessModel, table.map toProcessModel = entries.map some →
        ∃ l, collectProcesses limit (.ok table) = some l
          ∧ l.Perm entries
          ∧ l.Pairwise (fun a b => a.Cpu ≥ b.Cpu)
          ∧ l.Chain' (fun a b => a.Cpu ≥ b.Cpu)) := by
  have key : ∀ entries : List ProcessModel, table.map toProcessModel = entries.map some →
      collectProcesses limit (.ok table) = some (sortSlice cpuGreater entries) := by
    intro entries hproj
    have hlen : entries.length = table.length := by
      have := congrArg List.length hproj
      simpa using this.symm
    have htake : entries.take (max 1 limit).toNat = entries := by
      apply List.take_of_length_le
      omega
    rw [collectProcesses_eq limit table entries hproj, htake]
  constructor
  · intro l hl
    have hloop : ∃ l0, procLoop limit table [] = some l0 := by
      simp only [collectProcesses, Option.map_eq_some'] at hl
      obtain ⟨l0, h0, -⟩ := hl
      exact ⟨l0, h0⟩
    obtain ⟨l0, h0⟩ := hloop
    obtain ⟨entries, hproj⟩ := procLoop_some_projects limit table [] l0 (by simpa using hsize) h0
    have hl2 := key entries hproj
    rw [hl] at hl2
    simp only [Option.some.injEq] at hl2
    subst hl2
    exact ⟨entries, hproj, sortSlice_perm _ _, sortSlice_cpu_descending _,
      (sortSlice_cpu_descending _).chain'⟩
  · intro entries hproj
    exact ⟨sortSlice cpuGreater entries, key entries hproj, sortSlice_perm _ _,
      sortSlice_cpu_descending _, (sortSlice_cpu_descending _).chain'⟩

/-- C2 at a concrete table of three processes under the default limit 50. -/
theorem collectProcesses_within_limit_witness :
    ∃ l, collectProcesses 50
        (.ok [mkProcess 1 "init" 1 "S", mkProcess 2 "worker" 5 "R", mkProcess 3 "db" 3 "S"])
          = some l
      ∧ l.Perm
          [{ Pid := 1, Name := "init", Cpu := 1, MemPercent := 0, Username := "root",
             Status := "S" },
           { Pid := 2, Name := "worker", Cpu := 5, MemPercent := 0, Username := "root",
             Status := "R" },
           { Pid := 3, Name := "db", Cpu := 3, MemPercent := 0, Username := "root",
             Status := "S" }]
      ∧ l.Pairwise (fun a b => a.Cpu ≥ b.Cpu)
      ∧ l.Chain' (fun a b => a.Cpu ≥ b.Cpu) :=
  (collectProcesses_within_limit 50
    [mkProcess 1 "init" 1 "S", mkProcess 2 "worker" 5 "R", mkProcess 3 "db" 3 "S"]
    (by decide)).2 _ (by decide)

/-- A table of a readable process and one whose five reads all fail: both
entries are returned, the second with empty and zero fields. -/
theorem collectProcesses_unreadable_process :
    collectProcesses 50 (.ok [mkProcess 1 "init" 1 "S", unreadableProcess 7])
      = some
          [{ Pid := 1, Name := "init", Cpu := 1, MemPercent := 0, Username := "root",
             Status := "S" },
           { Pid := 7, Name := "", Cpu := 0, MemPercent := 0, Username := "", Status := "" }] := by
  decide

/-- Failed name, cpu, memory and username reads alone do not abort the
ranking: as long as no status slice of the table is empty the function
returns. -/
theorem collectProcesses_returns_of_status (limit : Int) (table : List ProcessReads)
    (hst : ∀ p ∈ table, p.status.val ≠ []) :
    ∃ l, collectProcesses limit (.ok table) = some l := by
  have hex : ∃ entries : List ProcessModel, table.map toProcessModel = entries.map some := by
    induction table with
    | nil => exact ⟨[], rfl⟩
    | cons p rest ih =>
      obtain ⟨es, hes⟩ := ih (fun q hq => hst q (List.mem_cons_of_mem _ hq))
      have hp := hst p (List.mem_cons_self _ _)
      cases hs : p.status.val with
      | nil => exact absurd hs hp
      | cons st sts =>
        refine ⟨⟨p.Pid, p.name.val, p.cpuPercent.val, p.memoryPercent.val, p.username.val,
          st⟩ :: es, ?_⟩
        simp only [List.map_cons, hes, toProcessModel, hs]
  obtain ⟨entries, hproj⟩ := hex
  exact ⟨_, collectProcesses_eq limit table entries hproj⟩

/-! ## Connection enumeration -/

/-- C3 as stated fails: with `NetworkConnectionsLimit = 0` and one socket the
list returned has one entry, and with the limit `-1` even the empty list is
longer than the limit. -/
theorem collectNetworkConnections_exceeds_nonpositive_limit :
    ¬ (((collectNetworkConnections 0 (.ok [mkConnection 7 8080]) handleFails).length : Int) ≤ 0)
      ∧ ¬ (((collectNetworkConnections (-1) (.ok []) handleFails).length : Int) ≤ -1) := by
  decide

/-- C3, amended: for every socket table and every limit (zero and negative
values included) the list returned is the projection of the first `k` sockets
of the table, in table order, for some `k`; and whenever the limit is at least
one, its length is at most the limit, also when the socket read fails. -/
theorem collectNetworkConnections_bounded (limit : Int)
    (conns : Except String (List ConnectionStat)) (lookup : ProcessLookup) :
    (∀ table, conns = .ok table →
        ∃ k, collectNetworkConnections limit conns lookup
          = (table.take k).map (toNetworkConnection lookup))
      ∧ (1 ≤ limit → ((collectNetworkConnections limit conns lookup).length : Int) ≤ limit) := by
  constructor
  · intro table h
    subst h
    exact ⟨(max 1 limit).toNat, by simp [collectNetworkConnections, connLoop_eq]⟩
  · intro hlim
    cases conns with
    | error e => simp only [collectNetworkConnections, List.length_nil]; omega
    | ok table =>
      simp only [collectNetworkConnections, connLoop_eq, List.nil_append, List.length_map,
        List.length_take, List.length_nil]
      omega

/-- C4, evaluated on the code: for a socket with owning pid 7 whose process
handle is created but whose `Name()` read fails (returning `""` and an error),
the entry produced has `ProcessName = ""`, not `"unknown"`. -/
theorem collectNetworkConnections_name_failure_not_unknown :
    collectNetworkConnections 100 (.ok [mkConnection 7 8080]) nameReadFails
        = [{ Pid := 7, LocalAddress := "10.0.0.1", LocalPort := 8080
             RemoteAddress := "10.0.0.2", RemotePort := 443, ProcessName := ""
             Status := "ESTABLISHED", Protocol := "tcp" }]
      ∧ (collectNetworkConnections 100 (.ok [mkConnection 7 8080]) nameReadFails).map
          (fun e => e.ProcessName) ≠ ["unknown"] := by
  decide

/-- The part of the fallback the code does implement: when the process handle
cannot be created, or the socket has no owning pid, the owner name is
`"unknown"`. -/
theorem resolveProcessName_unknown (lookup : ProcessLookup) (pid : Int)
    (h : pid ≤ 0 ∨ lookup pid = none) : resolveProcessName lookup pid = "unknown" := by
  unfold resolveProcessName
  rcases h with h | h
  · rw [if_neg (by omega)]
  · split
    · rw [h]
    · rfl


/-! ## Throughput tracker -/

/-- The binary64 values of the example used below: `Seconds()` of 1.1 s is
`0x3FF199999999999A`, the `float64` next above 1.1, and `33 / 1.1` in
`float64` is `0x403DFFFFFFFFFFFF`, the `float64` next below 30. -/
theorem float64_example :
    durationSeconds 1100000000 = { mant := 4953959590107546, exp := -52 }
      ∧ F64.div (F64.ofNat 33) (durationSeconds 1100000000)
        = { mant := 8444249301319679, exp := -48 }
      ∧ rateU64 33 1100000000 = 29
      ∧ rateU64 3000 2000000000 = 1500
      ∧ rateU64 9223372036854775808 500000000 = 9223372036854775808 := by
  decide

theorem subU64_eq_sub (a b : Nat) (hab : a ≤ b) (hb : b < u64) : subU64 b a = b - a := by
  unfold subU64 u64 at *
  have ha : a % 2 ^ 64 = a := Nat.mod_eq_of_lt (by omega)
  rw [ha]
  omega

theorem initNetworkStats_sample (st : NetStats) (s : Sample) :
    initNetworkStats st s.time s.counters = s.baseline := rfl

/-- One call of `calculateNetworkSpeed` on a sample that follows the baseline
sample returns the `float64` rate and makes the sample the baseline. -/
theorem calculateNetworkSpeed_follows (last cur : Sample) (h : last.follows cur) :
    calculateNetworkSpeed last.baseline cur.time cur.counters
      = (floatRate last cur, cur.baseline) := by
  obtain ⟨ht, -, hs, hr, hsb, hrb⟩ := h
  have hpos : ¬ (cur.time - last.time ≤ 0) := by omega
  simp only [calculateNetworkSpeed, Sample.baseline, Sample.counters, if_neg hpos, rateU64,
    floatRate, subU64_eq_sub _ _ hs hsb, subU64_eq_sub _ _ hr hrb]

/-- C5 as stated fails: with the baseline `(0, 0)` taken at instant 10 and a
reading `(100, 200)` at the same instant, `calculateNetworkSpeed` returns
`(0, 0)` and leaves the state at `(0, 0, 10)`; it is not refreshed to
`(100, 200, 10)`. -/
theorem calculateNetworkSpeed_keeps_baseline_without_elapsed :
    calculateNetworkSpeed { lastBytesSent := 0, lastBytesRecv := 0, lastCheckTime := 10 } 10
        { val := [{ BytesSent := 100, BytesRecv := 200 }], failed := false }
      = ((0, 0), { lastBytesSent := 0, lastBytesRecv := 0, lastCheckTime := 10 })
    ∧ (calculateNetworkSpeed { lastBytesSent := 0, lastBytesRecv := 0, lastCheckTime := 10 } 10
        { val := [{ BytesSent := 100, BytesRecv := 200 }], failed := false }).2
      ≠ { lastBytesSent := 100, lastBytesRecv := 200, lastCheckTime := 10 } := by
  decide

/-- C5, amended: for every tracker state and every sample with
`now <= lastCheckTime`, `calculateNetworkSpeed` returns `(0, 0)` and leaves
`lastBytesSent`, `lastBytesRecv` and `lastCheckTime` unchanged. -/
theorem calculateNetworkSpeed_no_elapsed (st : NetStats) (now : Int)
    (counters : Read (List IOCountersStat)) (h : now ≤ st.lastCheckTime) :
    calculateNetworkSpeed st now counters = ((0, 0), st) := by
  have hle : now - st.lastCheckTime ≤ 0 := by omega
  simp only [calculateNetworkSpeed, if_pos hle]

/-- C5, amended, at a clock reading that lies before the baseline. -/
theorem calculateNetworkSpeed_no_elapsed_witness :
    calculateNetworkSpeed { lastBytesSent := 40, lastBytesRecv := 50, lastCheckTime := 10 } 7
        { val := [{ BytesSent := 100, BytesRecv := 200 }], failed := false }
      = ((0, 0), { lastBytesSent := 40, lastBytesRecv := 50, lastCheckTime := 10 }) :=
  calculateNetworkSpeed_no_elapsed _ 7 _ (by decide)

theorem runSamples_baseline :
    ∀ (rest : List Sample) (last : Sample), List.Chain Sample.follows last rest →
      runSamples last.baseline rest = floatTrace last rest := by
  intro rest
  induction rest with
  | nil => intro last _; rfl
  | cons s rest ih =>
    intro last h
    rw [List.chain_cons] at h
    simp only [runSamples, floatTrace, calculateNetworkSpeed_follows last s h.1, ih s h.2]

/-- C6 as stated fails: for the baseline `(0, 0)` at instant 0 and the sample
`(33, 55)` taken 1.1 seconds later (timestamps increasing, counters
non-decreasing), `calculateNetworkSpeed` returns `(29, 49)`, whereas
`(current - last) / elapsed seconds` truncated is `(30, 50)`:
`Seconds()` gives the `float64` next above 1.1, and the `float64` quotients
fall just below 30 and 50. -/
theorem calculateNetworkSpeed_rate_below_exact_quotient :
    Sample.follows { sent := 0, recv := 0, time := 0 } { sent := 33, recv := 55, time := 1100000000 }
      ∧ runSamples
          (initNetworkStats { lastBytesSent := 0, lastBytesRecv := 0, lastCheckTime := 0 } 0
            (Sample.counters { sent := 0, recv := 0, time := 0 }))
          [{ sent := 33, recv := 55, time := 1100000000 }]
        = [((29, 49), { lastBytesSent := 33, lastBytesRecv := 55, lastCheckTime := 1100000000 })]
      ∧ specTrace { sent := 0, recv := 0, time := 0 }
          [{ sent := 33, recv := 55, time := 1100000000 }]
        = [((30, 50), { lastBytesSent := 33, lastBytesRecv := 55, lastCheckTime := 1100000000 })]
      ∧ runSamples
          (initNetworkStats { lastBytesSent := 0, lastBytesRecv := 0, lastCheckTime := 0 } 0
            (Sample.counters { sent := 0, recv := 0, time := 0 }))
          [{ sent := 33, recv := 55, time := 1100000000 }]
        ≠ specTrace { sent := 0, recv := 0, time := 0 }
            [{ sent := 33, recv := 55, time := 1100000000 }] := by
  refine ⟨?_, ?_, ?_, ?_⟩
  · unfold Sample.follows u64; decide
  · decide
  · decide
  · decide

/-- C6, amended: for a sequence of samples with strictly increasing timestamps
and non-decreasing counters, the first taken by `initNetworkStats` as the
baseline, every later call of `calculateNetworkSpeed` returns, independently
for sent and received, the `float64` quotient
`float64(current - last) / elapsed.Seconds()` converted to `uint64`, `last`
being the immediately preceding sample and the difference being taken without
wrap-around, and leaves the current counters and time as the new baseline. -/
theorem calculateNetworkSpeed_float_rate (st : NetStats) (first : Sample)
    (rest : List Sample) (h : List.Chain Sample.follows first rest) :
    runSamples (initNetworkStats st first.time first.counters) rest = floatTrace first rest := by
  rw [initNetworkStats_sample]
  exact runSamples_baseline rest first h

/-- C6, amended, on three samples 1.1 and two seconds apart: 33 and 55 bytes
in 1.1 seconds give 29 and 49, then 1000 and 400 bytes in two seconds give
500 and 200. -/
theorem calculateNetworkSpeed_float_rate_witness :
    runSamples
        (initNetworkStats { lastBytesSent := 0, lastBytesRecv := 0, lastCheckTime := 0 } 5
          (Sample.counters { sent := 1000, recv := 500, time := 5 }))
        [{ sent := 1033, recv := 555, time := 1100000005 },
         { sent := 2033, recv := 955, time := 3100000005 }]
      = [((29, 49), { lastBytesSent := 1033, lastBytesRecv := 555, lastCheckTime := 1100000005 }),
         ((500, 200), { lastBytesSent := 2033, lastBytesRecv := 955, lastCheckTime := 3100000005 })] :=
  (calculateNetworkSpeed_float_rate
    { lastBytesSent := 0, lastBytesRecv := 0, lastCheckTime := 0 }
    { sent := 1000, recv := 500, time := 5 }
    [{ sent := 1033, recv := 555, time := 1100000005 },
     { sent := 2033, recv := 955, time := 3100000005 }]
    (by simp [Sample.follows, u64])).trans (by decide)


/-! ## Tick handlers and the throughput state -/

/-- A call of `collectMetrics` that returns leaves `config` alone, and changes
the throughput state exactly when the three gauge reads succeed and
`EnableNetworkSpeed` is set: then the state is the one `calculateNetworkSpeed`
leaves. -/
theorem collectMetrics_state (s : AgentState) (w : TickWorld) (x : Except String MetricReport)
    (s1 : AgentState) (h : collectMetrics s w = some (x, s1)) :
    s1.config = s.config
      ∧ s1.net = if (w.readsSucceed && s.config.Collection.EnableNetworkSpeed) = true then
          (calculateNetworkSpeed s.net w.now w.counters).2 else s.net := by
  unfold collectMetrics at h
  unfold TickWorld.readsSucceed
  cases hc : w.cpuPercent with
  | error e =>
    simp only [hc, Option.some.injEq, Prod.mk.injEq] at h
    obtain ⟨-, rfl⟩ := h
    simp
  | ok cpus =>
    cases hm : w.virtualMemory with
    | error e =>
      simp only [hc, hm, Option.some.injEq, Prod.mk.injEq] at h
      obtain ⟨-, rfl⟩ := h
      simp
    | ok memInfo =>
      cases hd : w.diskUsage with
      | error e =>
        simp only [hc, hm, hd, Option.some.injEq, Prod.mk.injEq] at h
        obtain ⟨-, rfl⟩ := h
        simp
      | ok diskInfo =>
        simp only [hc, hm, hd] at h
        cases cpus with
        | nil => simp at h
        | cons cpu0 rest =>
          simp only at h
          split at h
          · simp at h
          · simp only [Option.some.injEq, Prod.mk.injEq] at h
            obtain ⟨-, rfl⟩ := h
            cases hen : s.config.Collection.EnableNetworkSpeed <;> simp

/-- A call of `collectMetrics` whose three gauge reads succeed and in which no
indexed slice is empty returns a report. -/
theorem collectMetrics_ok (s : AgentState) (w : TickWorld) (hreads : w.readsSucceed = true)
    (hsafe : w.indexSafe) :
    ∃ report s1, collectMetrics s w = some (.ok report, s1) := by
  unfold TickWorld.readsSucceed at hreads
  obtain ⟨hcpu, hstatus⟩ := hsafe
  unfold collectMetrics
  cases hc : w.cpuPercent with
  | error e => simp [hc] at hreads
  | ok cpus =>
    cases hm : w.virtualMemory with
    | error e => simp [hc, hm] at hreads
    | ok memInfo =>
      cases hd : w.diskUsage with
      | error e => simp [hc, hm, hd] at hreads
      | ok diskInfo =>
        cases cpus with
        | nil => exact absurd hc hcpu
        | cons cpu0 rest =>
          have hprocs : ∃ l, (if s.config.Collection.EnableDetailedProcesses = true then
              collectProcesses s.config.Collection.ProcessesLimit w.processes
              else some []) = some l := by
            split
            · cases hp : w.processes with
              | error e => exact ⟨[], rfl⟩
              | ok table =>
                exact collectProcesses_returns_of_status _ table (hstatus table hp)
            · exact ⟨[], rfl⟩
          obtain ⟨l, hl⟩ := hprocs
          simp only [hl]
          exact ⟨_, _, rfl⟩

/-- The report of `collectMetrics` carries the identity fields of `config`. -/
theorem collectMetrics_identity (s : AgentState) (w : TickWorld) (report : MetricReport)
    (s1 : AgentState) (h : collectMetrics s w = some (.ok report, s1)) :
    report.AgentID = s.config.AgentID ∧ report.ApiKey = s.config.ApiKey := by
  unfold collectMetrics at h
  cases hc : w.cpuPercent with
  | error e => simp [hc] at h
  | ok cpus =>
    cases hm : w.virtualMemory with
    | error e => simp [hc, hm] at h
    | ok memInfo =>
      cases hd : w.diskUsage with
      | error e => simp [hc, hm, hd] at h
      | ok diskInfo =>
        simp only [hc, hm, hd] at h
        cases cpus with
        | nil => simp at h
        | cons cpu0 rest =>
          simp only at h
          split at h
          · simp at h
          · simp only [Option.some.injEq, Prod.mk.injEq, Except.ok.injEq] at h
            obtain ⟨hr, -⟩ := h
            rw [← hr]
            exact ⟨rfl, rfl⟩

/-- `collectMetrics` returns an error only when one of the three gauge reads
fails. -/
theorem collectMetrics_error (s : AgentState) (w : TickWorld) (e : String) (s1 : AgentState)
    (h : collectMetrics s w = some (.error e, s1)) : w.readsSucceed = false := by
  unfold collectMetrics at h
  unfold TickWorld.readsSucceed
  cases hc : w.cpuPercent with
  | error e => rfl
  | ok cpus =>
    cases hm : w.virtualMemory with
    | error e => rfl
    | ok memInfo =>
      cases hd : w.diskUsage with
      | error e => rfl
      | ok diskInfo =>
        simp only [hc, hm, hd] at h
        cases cpus with
        | nil => simp at h
        | cons cpu0 rest =>
          simp only at h
          split at h <;> simp at h

theorem sendHeartbeat_state (s : AgentState) (w : TickWorld) (hbTime : Int)
    (post : Except String (Nat × String)) (out : HeartbeatOutcome) (s1 : AgentState)
    (h : sendHeartbeat s w hbTime post = some (out, s1)) :
    ∃ x, collectMetrics s w = some (x, s1) := by
  unfold sendHeartbeat at h
  split at h
  · simp at h
  · rename_i e s2 hcm
    simp only [Option.some.injEq, Prod.mk.injEq] at h
    obtain ⟨-, rfl⟩ := h
    exact ⟨_, hcm⟩
  · rename_i metrics s2 hcm
    refine ⟨.ok metrics, ?_⟩
    have hs : s2 = s1 := by
      cases post with
      | error e =>
        simp only [Option.some.injEq, Prod.mk.injEq] at h
        exact h.2
      | ok resp =>
        simp only at h
        split at h <;>
          · simp only [Option.some.injEq, Prod.mk.injEq] at h
            exact h.2
    rw [← hs]; exact hcm

theorem step_config (s s1 : AgentState) (t : Tick) (h : step s t = some s1) :
    s1.config = s.config := by
  cases t with
  | metrics w kafka =>
    simp only [step, Option.map_eq_some', Prod.exists] at h
    obtain ⟨out, s2, hm, rfl⟩ := h
    unfold metricsTick at hm
    split at hm
    · simp at hm
    · rename_i e s3 hcm
      simp only [Option.some.injEq, Prod.mk.injEq] at hm
      obtain ⟨-, rfl⟩ := hm
      exact (collectMetrics_state s w _ _ hcm).1
    · rename_i r s3 hcm
      simp only [Option.some.injEq, Prod.mk.injEq] at hm
      obtain ⟨-, rfl⟩ := hm
      exact (collectMetrics_state s w _ _ hcm).1
  | heartbeat w hbTime post =>
    simp only [step, Option.map_eq_some', Prod.exists] at h
    obtain ⟨out, s2, hm, rfl⟩ := h
    unfold heartbeatTick at hm
    split at hm
    · obtain ⟨x, hx⟩ := sendHeartbeat_state s w hbTime post out _ hm
      exact (collectMetrics_state s w _ _ hx).1
    · simp only [Option.some.injEq, Prod.mk.injEq] at hm
      rw [← hm.2]

theorem run_config : ∀ (ticks : List Tick) (s s1 : AgentState),
    run s ticks = some s1 → s1.config = s.config := by
  intro ticks
  induction ticks with
  | nil =>
    intro s s1 h
    simp only [run, Option.some.injEq] at h
    rw [h]
  | cons t rest ih =>
    intro s s1 h
    simp only [run] at h
    split at h
    · simp at h
    · rename_i s2 hstep
      rw [ih s2 s1 h, step_config s s2 t hstep]

/-- C7 as stated fails: a heartbeat tick of a registered agent one second
after the baseline `(0, 0)` moves the throughput state to the counters it
read, `(1000, 2000)` at one second; the metrics tick at two seconds, with the
counters at `(3000, 6000)`, then reports 2000 and 4000 bytes per second,
whereas without the heartbeat tick it reports 1500 and 3000. -/
theorem heartbeatTick_moves_throughput_baseline :
    (heartbeatTick registeredState (tickWorldAt 1000000000 1000 2000) 1000000000
          (.ok (200, "200 OK"))).map
        (fun r => r.2.net)
      = some { lastBytesSent := 1000, lastBytesRecv := 2000, lastCheckTime := 1000000000 }
    ∧ registeredState.net = { lastBytesSent := 0, lastBytesRecv := 0, lastCheckTime := 0 }
    ∧ ((heartbeatTick registeredState (tickWorldAt 1000000000 1000 2000) 1000000000
          (.ok (200, "200 OK"))).bind
        (fun r => metricsTick r.2 (tickWorldAt 2000000000 3000 6000) none)).map
        (fun r => r.1.published.map (fun m => (m.BytesSentSec, m.BytesRecvSec)))
      = some (some (2000, 4000))
    ∧ (metricsTick registeredState (tickWorldAt 2000000000 3000 6000) none).map
        (fun r => r.1.published.map (fun m => (m.BytesSentSec, m.BytesRecvSec)))
      = some (some (1500, 3000)) := by
  decide

/-- C7, amended: a heartbeat tick never changes `config`, and it leaves the
throughput state unchanged whenever the identity is empty (no heartbeat is
sent), `EnableNetworkSpeed` is off, or one of the CPU, memory and disk reads
of its `collectMetrics` call fails; otherwise that call samples the tracker,
and the state after the tick is the one `calculateNetworkSpeed` leaves for the
tick's clock and counter reading. -/
theorem heartbeatTick_throughput_state (s : AgentState) (w : TickWorld) (hbTime : Int)
    (post : Except String (Nat × String)) (out : HeartbeatOutcome) (s1 : AgentState)
    (h : heartbeatTick s w hbTime post = some (out, s1)) :
    s1.config = s.config
      ∧ s1.net = if (decide (s.config.AgentID ≠ "") && w.readsSucceed
            && s.config.Collection.EnableNetworkSpeed) = true then
          (calculateNetworkSpeed s.net w.now w.counters).2 else s.net := by
  unfold heartbeatTick at h
  split at h
  · rename_i hid
    obtain ⟨x, hx⟩ := sendHeartbeat_state s w hbTime post out s1 h
    have hst := collectMetrics_state s w x s1 hx
    refine ⟨hst.1, ?_⟩
    rw [hst.2]
    simp [hid]
  · rename_i hid
    simp only [Option.some.injEq, Prod.mk.injEq] at h
    obtain ⟨-, rfl⟩ := h
    simp only [ne_eq, Decidable.not_not] at hid
    simp [hid]

/-- C7, amended, at a heartbeat tick of a registered agent whose reads succeed:
the request is posted and the throughput state becomes the tick's reading,
which is what `calculateNetworkSpeed` leaves. -/
theorem heartbeatTick_throughput_state_witness :
    heartbeatTick registeredState (tickWorldAt 1000000000 1000 2000) 1000000000
          (.ok (200, "200 OK"))
        = some
            ({ posted := some ("http://localhost:8080/api/v1/agents/agent-1/heartbeat",
                  { AgentID := "agent-1", CpuUsage := 12, RamUsedPercent := 50
                    Status := "ACTIVE", Timestamp := 1000000000 })
               error := none },
             { config := registeredState.config
               net := { lastBytesSent := 1000, lastBytesRecv := 2000
                        lastCheckTime := 1000000000 } })
      ∧ ({ lastBytesSent := 1000, lastBytesRecv := 2000, lastCheckTime := 1000000000 } : NetStats)
        = (calculateNetworkSpeed registeredState.net 1000000000
            { val := [{ BytesSent := 1000, BytesRecv := 2000 }], failed := false }).2 :=
  ⟨by decide,
   (heartbeatTick_throughput_state registeredState (tickWorldAt 1000000000 1000 2000)
      1000000000 (.ok (200, "200 OK"))
      { posted := some ("http://localhost:8080/api/v1/agents/agent-1/heartbeat",
          { AgentID := "agent-1", CpuUsage := 12, RamUsedPercent := 50
            Status := "ACTIVE", Timestamp := 1000000000 })
        error := none }
      { config := registeredState.config
        net := { lastBytesSent := 1000, lastBytesRecv := 2000, lastCheckTime := 1000000000 } }
      (by decide)).2.trans (by decide)⟩


/-! ## Identity and standalone mode -/

/-- C8 as stated fails: a configuration file that carries `agentId` without
`apiKey` leaves, after startup, `AgentID = "agent-1"` and `ApiKey = ""`
(registration is then skipped); so does a server answering 200 with an
`agentId` and an empty `apiKey`. -/
theorem startup_identity_unpaired :
    (startup { standaloneStart with
        file := .decoded { emptyPatch with agentId := some "agent-1" } false }).config.AgentID
      = "agent-1"
    ∧ (startup { standaloneStart with
        file := .decoded { emptyPatch with agentId := some "agent-1" } false }).config.ApiKey
      = ""
    ∧ ¬ identityPaired
        (startup { standaloneStart with
          registration := .response 200 "200 OK" ""
            (.ok { AgentID := "agent-2", ApiKey := "", Status := "ok", Message := "" })
          }).config.AgentID
        (startup { standaloneStart with
          registration := .response 200 "200 OK" ""
            (.ok { AgentID := "agent-2", ApiKey := "", Status := "ok", Message := "" })
          }).config.ApiKey := by
  decide

theorem loadedConfig_paired (w : StartupWorld)
    (hfile : ∀ patch failed, w.file = .decoded patch failed →
      identityPaired (patch.agentId.getD "") (patch.apiKey.getD ""))
    (henv : identityPaired w.env.AGENT_ID w.env.API_KEY) :
    identityPaired (loadedConfig w).AgentID (loadedConfig w).ApiKey := by
  unfold loadedConfig loadConfig
  cases hf : w.file with
  | unreadable => left; exact ⟨rfl, rfl⟩
  | decoded patch failed =>
    have hp := hfile patch failed hf
    cases failed with
    | true => simpa [unmarshalConfig, loadDefaultConfig, zeroConfig] using hp
    | false =>
      simp only [applyEnvironment, unmarshalConfig, loadDefaultConfig, zeroConfig]
      unfold identityPaired at henv hp ⊢
      rcases henv with ⟨ha, hk⟩ | ⟨ha, hk⟩
      · simpa [ha, hk] using hp
      · right; simp [ha, hk]

theorem registerAgent_paired (c : AgentConfig) (x : RegistrationExchange)
    (hc : identityPaired c.AgentID c.ApiKey)
    (hresp : ∀ code status body r, x = .response code status body (.ok r) →
      identityPaired r.AgentID r.ApiKey) :
    identityPaired (registerAgent c x).2.AgentID (registerAgent c x).2.ApiKey := by
  unfold registerAgent
  cases x with
  | transportError msg => exact hc
  | response code status body decoded =>
    simp only
    split
    · exact hc
    · cases decoded with
      | error e => exact hc
      | ok r => exact hresp code status body r rfl

/-- C8, amended: `AgentID` and `ApiKey` are both empty after
`loadDefaultConfig`, and in every state reachable from startup (after
`loadConfig`, after `registerAgent`, after any sequence of ticks) they are
both empty or both non-empty, provided the configuration file, the
environment overrides and the server response each carry the two values
together (both non-empty, or both empty or absent). The code itself does not
check the pairing. -/
theorem identity_paired_of_paired_inputs (w : StartupWorld)
    (hfile : ∀ patch failed, w.file = .decoded patch failed →
      identityPaired (patch.agentId.getD "") (patch.apiKey.getD ""))
    (henv : identityPaired w.env.AGENT_ID w.env.API_KEY)
    (hresp : ∀ code status body r, w.registration = .response code status body (.ok r) →
      identityPaired r.AgentID r.ApiKey) :
    ((loadDefaultConfig zeroConfig).AgentID = "" ∧ (loadDefaultConfig zeroConfig).ApiKey = "")
      ∧ identityPaired (loadedConfig w).AgentID (loadedConfig w).ApiKey
      ∧ identityPaired (startup w).config.AgentID (startup w).config.ApiKey
      ∧ ∀ ticks s, run (startup w) ticks = some s →
          identityPaired s.config.AgentID s.config.ApiKey := by
  have hl := loadedConfig_paired w hfile henv
  have hs : identityPaired (startup w).config.AgentID (startup w).config.ApiKey := by
    simp only [startup]
    split
    · exact registerAgent_paired _ _ hl hresp
    · exact hl
  refine ⟨⟨rfl, rfl⟩, hl, hs, ?_⟩
  intro ticks s hrun
  rw [run_config ticks _ s hrun]
  exact hs

/-- C8, amended, at a start whose file carries both identity values. -/
theorem identity_paired_of_paired_inputs_witness :
    ((loadDefaultConfig zeroConfig).AgentID = "" ∧ (loadDefaultConfig zeroConfig).ApiKey = "")
      ∧ identityPaired
          (loadedConfig { standaloneStart with
            file := .decoded
              { emptyPatch with agentId := some "agent-1", apiKey := some "key-1" } false }).AgentID
          (loadedConfig { standaloneStart with
            file := .decoded
              { emptyPatch with agentId := some "agent-1", apiKey := some "key-1" } false }).ApiKey
      ∧ identityPaired
          (startup { standaloneStart with
            file := .decoded
              { emptyPatch with agentId := some "agent-1", apiKey := some "key-1" } false
            }).config.AgentID
          (startup { standaloneStart with
            file := .decoded
              { emptyPatch with agentId := some "agent-1", apiKey := some "key-1" } false
            }).config.ApiKey
      ∧ ∀ ticks s,
          run (startup { standaloneStart with
            file := .decoded
              { emptyPatch with agentId := some "agent-1", apiKey := some "key-1" } false })
            ticks = some s →
          identityPaired s.config.AgentID s.config.ApiKey :=
  identity_paired_of_paired_inputs
    { standaloneStart with
      file := .decoded { emptyPatch with agentId := some "agent-1", apiKey := some "key-1" } false }
    (by
      intro patch failed h
      simp only [ConfigFile.decoded.injEq] at h
      rw [← h.1]
      decide)
    (by decide)
    (by intro code status body r h; simp [standaloneStart] at h)

theorem registerAgent_fails (c : AgentConfig) (x : RegistrationExchange) (h : x.fails) :
    (registerAgent c x).1 ≠ none ∧ (registerAgent c x).2 = c := by
  unfold registerAgent
  cases x with
  | transportError msg => simp
  | response code status body decoded =>
    simp only [RegistrationExchange.fails] at h
    simp only
    split
    · simp
    · rename_i hcode
      rcases h with h | ⟨e, h⟩
      · exact absurd h hcode
      · subst h; simp

/-- What holds of standalone mode: starting with an empty identity, if the
registration exchange fails, then after startup and after any sequence of
later ticks `AgentID` and `ApiKey` are empty; every heartbeat tick there posts
nothing and changes no state; and a metrics tick there whose CPU, memory and
disk reads succeed, whenever its handler returns, has handed a report with the
empty identity to `sendToKafka`. The handler returns when no slice it indexes
at `[0]` is empty. -/
theorem standalone_frame (w : StartupWorld) (ticks : List Tick) (s : AgentState)
    (hid : (loadedConfig w).AgentID = "" ∧ (loadedConfig w).ApiKey = "")
    (hfail : w.registration.fails)
    (hrun : run (startup w) ticks = some s) :
    ((startup w).config.AgentID = "" ∧ (startup w).config.ApiKey = "")
      ∧ (s.config.AgentID = "" ∧ s.config.ApiKey = "")
      ∧ (∀ tw hbTime post,
          heartbeatTick s tw hbTime post = some ({ posted := none, error := none }, s))
      ∧ (∀ tw kafka, tw.readsSucceed = true →
          (∀ out s1, metricsTick s tw kafka = some (out, s1) →
            ∃ report, collectMetrics s tw = some (.ok report, s1)
              ∧ out = { published := some report, error := kafka }
              ∧ report.AgentID = "" ∧ report.ApiKey = "")
          ∧ (tw.indexSafe → ∃ out s1, metricsTick s tw kafka = some (out, s1))) := by
  have hstart : (startup w).config = loadedConfig w := by
    simp only [startup, hid.1, if_true]
    exact (registerAgent_fails _ _ hfail).2
  have hcfg : s.config = loadedConfig w := by
    rw [run_config ticks _ s hrun, hstart]
  have hA : s.config.AgentID = "" := by rw [hcfg]; exact hid.1
  have hK : s.config.ApiKey = "" := by rw [hcfg]; exact hid.2
  refine ⟨by rw [hstart]; exact hid, ⟨hA, hK⟩, ?_, ?_⟩
  · intro tw hbTime post
    simp [heartbeatTick, hA]
  · intro tw kafka hreads
    constructor
    · intro out s1 hm
      unfold metricsTick at hm
      split at hm
      · simp at hm
      · rename_i e s2 hcm
        have := collectMetrics_error s tw e s2 hcm
        rw [hreads] at this
        exact absurd this (by simp)
      · rename_i report s2 hcm
        simp only [Option.some.injEq, Prod.mk.injEq] at hm
        obtain ⟨hout, rfl⟩ := hm
        obtain ⟨h1, h2⟩ := collectMetrics_identity s tw report s2 hcm
        exact ⟨report, hcm, hout.symm, h1.trans hA, h2.trans hK⟩
    · intro hsafe
      obtain ⟨report, s1, hcm⟩ := collectMetrics_ok s tw hreads hsafe
      exact ⟨{ published := some report, error := kafka }, s1, by simp [metricsTick, hcm]⟩

/-- In standalone mode a metrics tick whose CPU read returns a value publishes
the snapshot, with the empty identity. -/
theorem standalone_metricsTick_publishes :
    metricsTick (startup standaloneStart) (tickWorldAt 2000000000 3000 6000) none
      = some
          ({ published :=
               some
                 { AgentID := "", ApiKey := "", Hostname := "host-1", OsVersion := "linux"
                   AgentVersion := "1.1.0", CpuUsage := 12, RamUsedPercent := 50
                   RamTotalMb := 8192, RamUsedMb := 4096, DiskUsedPercent := 50
                   DiskTotalGb := 100, DiskUsedGb := 50
                   Processes :=
                     [{ Pid := 1, Name := "init", Cpu := 1, MemPercent := 0, Username := "root"
                        Status := "S" }]
                   NetworkConnections :=
                     [{ Pid := 1, LocalAddress := "10.0.0.1", LocalPort := 8080
                        RemoteAddress := "10.0.0.2", RemotePort := 443
                        ProcessName := "unknown", Status := "ESTABLISHED", Protocol := "tcp" }]
                   BytesSentSec := 1500, BytesRecvSec := 3000, Timestamp := 2000000000
                   UptimeSeconds := 3600 }
             error := none },
           { config := loadDefaultConfig zeroConfig
             net := { lastBytesSent := 3000, lastBytesRecv := 6000
                      lastCheckTime := 2000000000 } }) := by
  decide

/-- C10, evaluated on the code: after a start without configuration file whose
registration is answered with 503, the identity is empty and a heartbeat tick
posts nothing and leaves the state as it is; but a metrics tick whose CPU,
memory and disk reads all return without error, the CPU read returning an
empty slice, builds no snapshot and publishes nothing: `collectMetrics` panics
at `cpuPercent[0]` (index out of range). -/
theorem metricsTick_panics_on_empty_cpu_slice :
    standaloneStart.registration
        = .response 503 "503 Service Unavailable" "" (.error "EOF")
      ∧ ((startup standaloneStart).config.AgentID = ""
          ∧ (startup standaloneStart).config.ApiKey = "")
      ∧ heartbeatTick (startup standaloneStart) (tickWorldAt 1000000000 1000 2000) 1000000000
          (.ok (200, "200 OK"))
        = some ({ posted := none, error := none }, startup standaloneStart)
      ∧ (emptyCpuTick 2000000000 3000 6000).readsSucceed = true
      ∧ collectMetrics (startup standaloneStart) (emptyCpuTick 2000000000 3000 6000) = none
      ∧ metricsTick (startup standaloneStart) (emptyCpuTick 2000000000 3000 6000) none
        = none := by
  refine ⟨rfl, by decide, by decide, by decide, rfl, by decide⟩

end SentinelAgent
